import Mathlib

/-!
Shallow embedding of the MLADI export validator (src/main.py).

The program validates a directory of exported clinical-record CSV files:
a `Validator` is constructed per (directory, prefix) pair, runs a fixed
list of checks, and a batch loop in `main` runs one `Validator` per
prefix and prints a summary of failed prefixes.

Modelling conventions:
  - The filesystem is a `DirState`: existence/directory flags plus the
    directory listing.  Each entry carries its raw bytes (`content`, a
    list of characters, used by the line-based checks) and the outcome
    of parsing those bytes as CSV (`csv`, used by the pandas-based
    checks; the full pandas CSV grammar is out of scope, so the parse
    outcome is carried as data).
  - Python exceptions become the `PyExn` type; a function that can
    raise returns `Except PyExn`.  An uncaught exception propagates,
    which the embedding reflects by `Except.error` short-circuiting.
  - `pd.read_csv(..., parse_dates=[c])` converts column `c` to dates
    only when every value of the column parses; otherwise the column
    is kept as raw strings (object dtype).  Date parsing itself is
    modelled by `parseDate`, a fragment of the pandas parser covering
    ISO `YYYY-MM-DD` values; the checks only need that some strings
    parse and others do not.
  - An empty CSV field loads as a null value; `isNullCell` models
    `pd.isnull` on a loaded cell (other `na_values` sentinels of
    pandas are not needed by any property below).
  - `pd.Timestamp.now().year` is threaded through as `nowYear`.
-/

/-- Python exceptions that the validator can raise. -/
inductive PyExn where
  | fileNotFound (name : String)
  | parserError (name : String) (msg : String)
  | valueError (msg : String)
  | keyError (k : String)
  | attributeError (msg : String)
  | assertionError (msg : String)
  | indexError
deriving DecidableEq

instance {ε α : Type} [DecidableEq ε] [DecidableEq α] : DecidableEq (Except ε α) :=
  fun a b =>
    match a, b with
    | .ok x, .ok y =>
      if h : x = y then isTrue (by rw [h]) else isFalse (fun hc => h (Except.ok.inj hc))
    | .error x, .error y =>
      if h : x = y then isTrue (by rw [h]) else isFalse (fun hc => h (Except.error.inj hc))
    | .ok _, .error _ => isFalse (fun hc => Except.noConfusion hc)
    | .error _, .ok _ => isFalse (fun hc => Except.noConfusion hc)

/-- A CSV table as loaded by `pd.read_csv` before any date conversion:
a header row of column names and the data rows (cells as strings). -/
structure RawTable where
  header : List String
  rows : List (List String)
deriving DecidableEq

/-- Index of column `c` in a header list (leftmost match), `none` if absent. -/
def colIdx (c : String) : List String → Option Nat
  | [] => none
  | h :: rest => if h = c then some 0 else (colIdx c rest).map (fun i => i + 1)

/-- The values of column `c` of the table, top to bottom; `none` when the
column is absent (a lookup `df[c]` on the loaded frame raises `KeyError`). -/
def RawTable.col (t : RawTable) (c : String) : Option (List String) :=
  match colIdx c t.header with
  | none => none
  | some i => some (t.rows.map (fun r => r.getD i ""))

/-- One directory entry: its name, whether it is a regular file, its raw
bytes, and the outcome of parsing those bytes as CSV with
`escapechar='\\'` (carried as data, see the module comment). -/
structure FileEntry where
  name : String
  isFile : Bool
  content : List Char
  csv : Except String RawTable
deriving DecidableEq

/-- The directory handed to the validator: the string form of the path
(used in assertion messages), whether the path exists, whether it is a
directory, and its listing (`path.iterdir()`). -/
structure DirState where
  pathStr : String
  pathExists : Bool
  isDir : Bool
  entries : List FileEntry
deriving DecidableEq

/-- Result of one check: `pass` models returning `True`, `errors`
models returning the non-empty list of error strings. -/
inductive CheckRet where
  | pass
  | errors (msgs : List String)
deriving DecidableEq

/-- The `return errors if len(errors) > 0 else True` idiom. -/
def finish (errs : List String) : CheckRet :=
  if errs = [] then .pass else .errors errs

/-- `f.readline()` on raw bytes: the first line including its trailing
newline, plus the rest; at end of file it returns the empty string. -/
def readLine : List Char → List Char × List Char
  | [] => ([], [])
  | c :: rest =>
    if c = '\n' then ([c], rest)
    else
      let p := readLine rest
      (c :: p.1, p.2)

/-- Result of the first `readline()` call on a file's bytes. -/
def firstLine (cs : List Char) : List Char := (readLine cs).1

/-- Result of the second `readline()` call on a file's bytes. -/
def secondLine (cs : List Char) : List Char := (readLine (readLine cs).2).1

/-- The module-level `expected_file_suffixes` list of src/main.py. -/
def expected_file_suffixes : List String :=
  [ "enum.csv",
    "enumeration.csv",
    "enumerationvalue.csv",
    "numeric.csv",
    "numericvalue.csv",
    "wave.csv",
    "wavesample.csv",
    "ce.csv",
    "cs_ce.csv",
    "cs.csv",
    "icd.csv",
    "lab.csv",
    "loc.csv",
    "meds.csv",
    "io.csv",
    "patient.csv",
    "micro.csv",
    "suscep.csv",
    "dialysis_ce.csv",
    "dl_details_recent.csv",
    "surg.csv",
    "alert.csv",
    "demo.csv" ]

/-- The canonical 22-suffix catalog exactly as the spec words it
(section 6 of the spec); written from the spec, not from the source,
to be compared with `expected_file_suffixes`. -/
def specCanonicalSuffixes : List String :=
  [ "enumeration", "enumerationvalue", "numeric", "numericvalue", "wave",
    "wavesample", "ce", "cs_ce", "cs", "icd", "lab", "loc", "meds", "io",
    "patient", "micro", "suscep", "dialysis_ce", "dl_details_recent",
    "surg", "alert", "demo" ]

/-- The body of `Validator.__init__` up to its first failure: the three
path assertions in order, then the `prefix[-1] != '_'` assertion, whose
subscript raises `IndexError` on an empty prefix.  Returns the raised
exception, or `none` when construction succeeds. -/
def initErr (d : DirState) (pfx : String) : Option PyExn :=
  if !d.pathExists then some (.assertionError ("Path does not exist: " ++ d.pathStr))
  else if !d.isDir then some (.assertionError ("Path is not a directory: " ++ d.pathStr))
  else if d.entries.isEmpty then some (.assertionError ("Path is empty: " ++ d.pathStr))
  else
    match pfx.data.getLast? with
    | none => some PyExn.indexError
    | some c =>
      if c = '_' then some (.assertionError ("Prefix should not end in underscore: " ++ pfx))
      else none

/-- The state a constructed `Validator` holds. -/
structure Validator where
  path : DirState
  pfx : String
  expected_filenames : List String
  all_matching_files : List FileEntry
  all_valid_files_on_disk : List FileEntry
deriving DecidableEq

/-- The field computations of `Validator.__init__`:
`expected_filenames` from the suffix catalog, `all_matching_files` from
`path.glob(prefix + "*")` filtered to regular files (the glob prefix
match is modelled as a character-list prefix test), and
`all_valid_files_on_disk` as the matching files whose names are
expected. -/
def mkValidator (d : DirState) (pfx : String) : Validator :=
  let expected := expected_file_suffixes.map (fun sfx => pfx ++ "_" ++ sfx)
  let matching := d.entries.filter (fun e => e.isFile && pfx.data.isPrefixOf e.name.data)
  { path := d
    pfx := pfx
    expected_filenames := expected
    all_matching_files := matching
    all_valid_files_on_disk := matching.filter (fun e => decide (e.name ∈ expected)) }

/-- `Validator(path, prefix)`: the assertions run first; if none fails
the instance with its derived file lists is produced. -/
def Validator.init (d : DirState) (pfx : String) : Except PyExn Validator :=
  match initErr d pfx with
  | some e => .error e
  | none => .ok (mkValidator d pfx)

/-- `pd.read_csv(self.path / fname, escapechar='\\')` without date
parsing: a missing file raises `FileNotFoundError`, malformed bytes
raise a parser error, otherwise the loaded table is returned. -/
def readCsvFile (d : DirState) (fname : String) : Except PyExn RawTable :=
  match d.entries.find? (fun e => e.name = fname && e.isFile) with
  | none => .error (.fileNotFound fname)
  | some e =>
    match e.csv with
    | .error m => .error (.parserError fname m)
    | .ok t => .ok t

/-- Rendering of a Python exception by `str(e)`, as interpolated into
error messages (path rendering simplified to the bare file name). -/
def pyExnMessage : PyExn → String
  | .fileNotFound n => "[Errno 2] No such file or directory: " ++ n
  | .parserError _ m => m
  | .valueError m => m
  | .keyError k => k
  | .attributeError m => m
  | .assertionError m => m
  | .indexError => "string index out of range"

/-- A calendar date as produced by the pandas date parser; the check
only reads its year, the printed form also uses month and day. -/
structure PDate where
  year : Nat
  month : Nat
  day : Nat
deriving DecidableEq

/-- Left-pad a number to two digits. -/
def pad2 (n : Nat) : String :=
  if n < 10 then "0" ++ toString n else toString n

/-- Left-pad a number to four digits. -/
def pad4 (n : Nat) : String :=
  if n < 10 then "000" ++ toString n
  else if n < 100 then "00" ++ toString n
  else if n < 1000 then "0" ++ toString n
  else toString n

/-- How a `pd.Timestamp` prints inside an f-string. -/
def showTimestamp (d : PDate) : String :=
  pad4 d.year ++ "-" ++ pad2 d.month ++ "-" ++ pad2 d.day ++ " 00:00:00"

/-- Modelled fragment of the pandas date parser: ISO `YYYY-MM-DD`
values parse, everything else fails.  The properties below only need
that some strings parse to a date and others do not. -/
def parseDate (s : String) : Option PDate :=
  match s.data with
  | [y1, y2, y3, y4, '-', m1, m2, '-', d1, d2] =>
    if (y1.isDigit && y2.isDigit && y3.isDigit && y4.isDigit &&
        m1.isDigit && m2.isDigit && d1.isDigit && d2.isDigit) then
      let y := ((y1.toNat - 48) * 10 + (y2.toNat - 48)) * 100 +
               ((y3.toNat - 48) * 10 + (y4.toNat - 48))
      let m := (m1.toNat - 48) * 10 + (m2.toNat - 48)
      let dy := (d1.toNat - 48) * 10 + (d2.toNat - 48)
      if 1 ≤ m && m ≤ 12 && 1 ≤ dy && dy ≤ 31 then some ⟨y, m, dy⟩ else none
    else none
  | _ => none

/-- Parse every value of a column; `none` as soon as one value fails. -/
def parseAll : List String → Option (List PDate)
  | [] => some []
  | v :: rest =>
    match parseDate v, parseAll rest with
    | some d, some ds => some (d :: ds)
    | _, _ => none

/-- A loaded `DISCH_DATE` column: converted to dates when every value
parsed, otherwise kept as the raw strings (object dtype). -/
inductive ColData where
  | dates (ds : List PDate)
  | raw (vs : List String)
deriving DecidableEq

/-- `pd.read_csv(self.path / (prefix + "_demo.csv"), escapechar='\\',
parse_dates=['DISCH_DATE'])`, reduced to the one column the check
reads: a read failure propagates, a missing `DISCH_DATE` column raises
`ValueError` (pandas rejects a `parse_dates` column that is absent),
and otherwise the column is returned converted or raw. -/
def readDemoCsv (d : DirState) (pfx : String) : Except PyExn ColData :=
  match readCsvFile d (pfx ++ "_demo.csv") with
  | .error e => .error e
  | .ok t =>
    match t.col "DISCH_DATE" with
    | none => .error (.valueError "Missing column provided to parse_dates: DISCH_DATE")
    | some vs =>
      match parseAll vs with
      | some ds => .ok (.dates ds)
      | none => .ok (.raw vs)

/-- `Validator.validate_discharge_date`: loads the demo file (an
uncaught read failure propagates), takes `df['DISCH_DATE'][0]` (a
`KeyError` on an empty frame; an `AttributeError` from `.year` when the
column stayed raw), and compares the year against `[2000, now.year]`. -/
def Validator.validate_discharge_date (v : Validator) (nowYear : Nat) : Except PyExn CheckRet :=
  match readDemoCsv v.path v.pfx with
  | .error e => .error e
  | .ok (.dates []) => .error (.keyError "0")
  | .ok (.raw []) => .error (.keyError "0")
  | .ok (.raw (_ :: _)) => .error (.attributeError "str object has no attribute year")
  | .ok (.dates (d0 :: _)) =>
    if d0.year < 2000 ∨ d0.year > nowYear then
      .ok (.errors ["Discharge date is invalid: " ++ showTimestamp d0])
    else .ok .pass

/-- `Validator.validate_filenames`: one aggregate error listing the
matching files whose names are not expected, pass when there are none. -/
def Validator.validate_filenames (v : Validator) : CheckRet :=
  finish (if (v.all_matching_files.filter
      (fun f => decide (f.name ∉ v.expected_filenames))).length > 0 then
    ["Unexpected files found: " ++ String.intercalate ", "
      ((v.all_matching_files.filter
        (fun f => decide (f.name ∉ v.expected_filenames))).map (fun f => f.name))]
  else [])

/-- `Validator.validate_no_double_headers`: for each valid file on
disk, read the first two lines and emit an error when they are equal. -/
def Validator.validate_no_double_headers (v : Validator) : CheckRet :=
  finish (v.all_valid_files_on_disk.filterMap (fun f =>
    if firstLine f.content = secondLine f.content then
      some ("Double header row found in file: " ++ f.name)
    else none))

/-- Whether `pd.isnull` holds of a loaded cell: an empty CSV field
loads as null. -/
def isNullCell (s : String) : Bool := s == ""

/-- The `file_columns_to_check` mapping of
`Validator.validate_no_empty_dates`, in its insertion order. -/
def file_columns_to_check : List (String × List String) :=
  [ ("ce", ["DATE"]),
    ("cs", ["FORM_DATE"]),
    ("cs_ce", ["date"]),
    ("demo", ["REG_DATE", "DISCH_DATE"]),
    ("icd", ["DATE"]),
    ("io", ["DATE"]),
    ("lab", ["EVENT_DATE", "VALID_DATE"]),
    ("loc", ["BEG_DATE", "END_DATE"]),
    ("meds", ["CHART_DATE"]),
    ("patient", ["Timestamp"]) ]

/-- The inner `for col in cols` loop of `validate_no_empty_dates` on a
loaded table: `df[col]` on an absent column raises `KeyError` (which
escapes, nothing catches it); a present column with a null value
appends its error message. -/
def colErrors (fname : String) (t : RawTable) : List String → Except PyExn (List String)
  | [] => .ok []
  | c :: rest =>
    match t.col c with
    | none => .error (.keyError c)
    | some vs =>
      match colErrors fname t rest with
      | .error e => .error e
      | .ok es =>
        if vs.countP isNullCell > 0 then
          .ok (("Empty dates found in " ++ c ++ " column of " ++ fname) :: es)
        else .ok es

/-- The outer `for file_suffix, cols in file_columns_to_check.items()`
loop of `validate_no_empty_dates`: a read failure is caught and turned
into an error message (`continue`), but a `KeyError` from the column
loop is not caught and aborts the whole check. -/
def tableLoop (d : DirState) (pfx : String) : List (String × List String) → Except PyExn (List String)
  | [] => .ok []
  | (sfx, cols) :: rest =>
    match readCsvFile d (pfx ++ "_" ++ sfx ++ ".csv") with
    | .error e =>
      match tableLoop d pfx rest with
      | .error e2 => .error e2
      | .ok es =>
        .ok (("Error reading " ++ (pfx ++ "_" ++ sfx ++ ".csv") ++ ": " ++ pyExnMessage e) :: es)
    | .ok t =>
      match colErrors (pfx ++ "_" ++ sfx ++ ".csv") t cols with
      | .error e2 => .error e2
      | .ok es1 =>
        match tableLoop d pfx rest with
        | .error e2 => .error e2
        | .ok es => .ok (es1 ++ es)

/-- `Validator.validate_no_empty_dates`. -/
def Validator.validate_no_empty_dates (v : Validator) : Except PyExn CheckRet :=
  match tableLoop v.path v.pfx file_columns_to_check with
  | .error e => .error e
  | .ok es => .ok (finish es)

/-- The loop body of `Validator.validate`: the four enabled checks in
their declared order.  An exception raised by a check aborts the loop
(nothing catches it), so later checks produce no result.  The filename
and double-header checks are total, so the loop order is captured by
placing their results at positions one and three of the result list. -/
def checkResults (v : Validator) (nowYear : Nat) : Except PyExn (List CheckRet) :=
  match v.validate_discharge_date nowYear with
  | .error e => .error e
  | .ok r2 =>
    match v.validate_no_empty_dates with
    | .error e => .error e
    | .ok r4 => .ok [v.validate_filenames, r2, v.validate_no_double_headers, r4]

/-- `Validator.validate`: count the checks whose result is not `True`
and return whether that count is zero. -/
def Validator.validate (v : Validator) (nowYear : Nat) : Except PyExn Bool :=
  match checkResults v nowYear with
  | .error e => .error e
  | .ok rs => .ok (rs.countP (fun r => decide (r ≠ CheckRet.pass)) == 0)

/-- Python `s.strip('_')`: drop leading and trailing underscores. -/
def stripUnderscores (s : String) : String :=
  String.mk (((s.data.dropWhile (fun c => c = '_')).reverse.dropWhile (fun c => c = '_')).reverse)

/-- Outcome of the batch loop in `main`: `completed` means the loop
finished and the summary block ran, naming the failed prefixes;
`aborted` means an uncaught exception ended the process, with the
prefixes that were never processed and no summary printed. -/
inductive BatchResult where
  | completed (failed_patients : List String)
  | aborted (remaining : List String) (e : PyExn)
deriving DecidableEq

/-- The `for prefix in list(prefixes)` loop of `main`: strip
underscores, construct the `Validator` and run it — both may raise, and
nothing in `main` catches — and collect the prefixes that failed. -/
def batchLoop (d : DirState) (nowYear : Nat) : List String → List String → BatchResult
  | [], failed => .completed failed
  | p :: rest, failed =>
    let p2 := stripUnderscores p
    match Validator.init d p2 with
    | .error e => .aborted rest e
    | .ok v =>
      match v.validate nowYear with
      | .error e => .aborted rest e
      | .ok passed => batchLoop d nowYear rest (if passed then failed else failed ++ [p2])

/-- `main` on an explicitly supplied, non-empty prefix list. -/
def runBatch (d : DirState) (nowYear : Nat) (pfxs : List String) : BatchResult :=
  batchLoop d nowYear pfxs []

/-- Build a one-row CSV file entry whose raw bytes and parsed table
agree: header line, one data row. -/
def mkEntry (name : String) (hdr : List String) (row : List String) : FileEntry :=
  { name := name
    isFile := true
    content := (String.intercalate "," hdr ++ "\n" ++ String.intercalate "," row ++ "\n").data
    csv := .ok { header := hdr, rows := [row] } }

/-- Whether an `Except` computation returned normally. -/
def isOkE {α : Type} : Except PyExn α → Bool
  | .ok _ => true
  | .error _ => false

/-- A valid, non-empty directory used to exercise the batch loop. -/
def dC1 : DirState :=
  { pathStr := "exports", pathExists := true, isDir := true,
    entries := [mkEntry "A_demo.csv" ["REG_DATE", "DISCH_DATE"] ["2015-03-01", "2015-03-01"]] }

/-- A valid directory holding only `A_lab.csv`; the demo file is absent. -/
def dC2 : DirState :=
  { pathStr := "exports", pathExists := true, isDir := true,
    entries := [mkEntry "A_lab.csv" ["EVENT_DATE", "VALID_DATE"] ["2015-03-01", "2015-03-01"]] }

/-- A valid directory holding only `B_lab.csv`; the demo file is absent. -/
def dC3 : DirState :=
  { pathStr := "exports", pathExists := true, isDir := true,
    entries := [mkEntry "B_lab.csv" ["EVENT_DATE", "VALID_DATE"] ["2015-03-01", "2015-03-01"]] }

/-- A directory where every table of the null-date mapping is present,
well-formed and fully populated, so every enabled check passes. -/
def dC3w : DirState :=
  { pathStr := "exports", pathExists := true, isDir := true,
    entries :=
      [ mkEntry "B_ce.csv" ["DATE"] ["2015-03-01"],
        mkEntry "B_cs.csv" ["FORM_DATE"] ["2015-03-01"],
        mkEntry "B_cs_ce.csv" ["date"] ["2015-03-01"],
        mkEntry "B_demo.csv" ["REG_DATE", "DISCH_DATE"] ["2015-03-01", "2015-03-01"],
        mkEntry "B_icd.csv" ["DATE"] ["2015-03-01"],
        mkEntry "B_io.csv" ["DATE"] ["2015-03-01"],
        mkEntry "B_lab.csv" ["EVENT_DATE", "VALID_DATE"] ["2015-03-01", "2015-03-01"],
        mkEntry "B_loc.csv" ["BEG_DATE", "END_DATE"] ["2015-03-01", "2015-03-01"],
        mkEntry "B_meds.csv" ["CHART_DATE"] ["2015-03-01"],
        mkEntry "B_patient.csv" ["Timestamp"] ["2015-03-01"] ] }

/-- A directory whose `A_ce.csv` loads fine but lacks the required
`DATE` column. -/
def dC5 : DirState :=
  { pathStr := "exports", pathExists := true, isDir := true,
    entries := [mkEntry "A_ce.csv" ["X"] ["1"]] }

/-- A directory where `A_ce.csv` loads with its required column present
and populated, and no other null-date table is present, so the
null-date check returns normally. -/
def dC5w : DirState :=
  { pathStr := "exports", pathExists := true, isDir := true,
    entries := [mkEntry "A_ce.csv" ["DATE"] ["2015-03-01"]] }

/-- A directory whose `A_demo.csv` is a completely empty file. -/
def dC6 : DirState :=
  { pathStr := "exports", pathExists := true, isDir := true,
    entries := [{ name := "A_demo.csv", isFile := true, content := [],
                  csv := .error "No columns to parse from file" }] }

/-- A valid directory with a single well-formed demo file. -/
def dC7 : DirState :=
  { pathStr := "exports", pathExists := true, isDir := true,
    entries := [mkEntry "A_demo.csv" ["REG_DATE", "DISCH_DATE"] ["2015-03-01", "2015-03-01"]] }

/-- A directory holding one expected file and one junk file. -/
def dC8 : DirState :=
  { pathStr := "exports", pathExists := true, isDir := true,
    entries :=
      [ mkEntry "A_demo.csv" ["REG_DATE", "DISCH_DATE"] ["2015-03-01", "2015-03-01"],
        mkEntry "A_junk.csv" ["X"] ["1"] ] }

/-- A valid, non-empty directory for the empty-prefix scenario. -/
def dC9 : DirState :=
  { pathStr := "exports", pathExists := true, isDir := true,
    entries := [mkEntry "A_demo.csv" ["REG_DATE", "DISCH_DATE"] ["2015-03-01", "2015-03-01"]] }

/-- Demo file with one data row whose discharge date parses. -/
def dC10a : DirState :=
  { pathStr := "exports", pathExists := true, isDir := true,
    entries := [{ name := "A_demo.csv", isFile := true,
                  content := "DISCH_DATE\n2015-03-01\n".data,
                  csv := .ok { header := ["DISCH_DATE"], rows := [["2015-03-01"]] } }] }

/-- Same demo file as `dC10a` except for an added second data row whose
discharge date does not parse. -/
def dC10b : DirState :=
  { pathStr := "exports", pathExists := true, isDir := true,
    entries := [{ name := "A_demo.csv", isFile := true,
                  content := "DISCH_DATE\n2015-03-01\nnotadate\n".data,
                  csv := .ok { header := ["DISCH_DATE"], rows := [["2015-03-01"], ["notadate"]] } }] }

/-- Same demo file as `dC10a` except for an added second data row whose
discharge date does parse. -/
def dC10c : DirState :=
  { pathStr := "exports", pathExists := true, isDir := true,
    entries := [{ name := "A_demo.csv", isFile := true,
                  content := "DISCH_DATE\n2015-03-01\n2001-02-03\n".data,
                  csv := .ok { header := ["DISCH_DATE"], rows := [["2015-03-01"], ["2001-02-03"]] } }] }

/-- Claim C4, counterexample: the source catalog contains the entry
`enum.csv`, which lies outside the canonical 22-suffix set given by the
spec, so the registry is not exactly that set. -/
theorem C4_counterexample :
    "enum.csv" ∈ expected_file_suffixes ∧
    "enum.csv" ∉ specCanonicalSuffixes.map (fun s => s ++ ".csv") := by decide

/-- Claim C4 (amended): the Schema Registry is the canonical 22-suffix
catalog of the spec plus one extra entry `enum`, 23 entries in all,
every entry unique, and each entry is joined to a prefix as
`prefix + "_" + suffix + ".csv"`. -/
theorem C4_amended :
    expected_file_suffixes = "enum.csv" :: specCanonicalSuffixes.map (fun s => s ++ ".csv") ∧
    expected_file_suffixes.Nodup ∧
    expected_file_suffixes.length = 23 ∧
    (∀ d p, (mkValidator d p).expected_filenames =
      expected_file_suffixes.map (fun s => p ++ "_" ++ s)) :=
  ⟨by decide, by decide, by decide, fun _ _ => rfl⟩

/-- Claim C1, counterexample: over the prefix list `["___", "B"]` on a
valid directory, the first prefix normalizes to the empty string and
its construction raises; the batch aborts with prefix `B` never
validated and no summary emitted (an `aborted` outcome, not a
`completed` one). -/
theorem C1_counterexample :
    runBatch dC1 2026 ["___", "B"] = .aborted ["B"] PyExn.indexError := by decide

/-- Claim C1 (amended): a precondition failure during Patient Validator
construction for one prefix raises an uncaught exception that aborts
the whole batch run: the remaining prefixes are never validated and the
final summary is not emitted. -/
theorem C1_amended (d : DirState) (nowYear : Nat) (p : String) (rest failed : List String)
    (e : PyExn) (h : initErr d (stripUnderscores p) = some e) :
    batchLoop d nowYear (p :: rest) failed = .aborted rest e := by
  simp [batchLoop, Validator.init, h]

/-- Witness for C1_amended at a concrete batch. -/
theorem C1_witness :
    batchLoop dC1 2026 ["___", "B"] [] = .aborted ["B"] PyExn.indexError :=
  C1_amended dC1 2026 "___" ["B"] [] PyExn.indexError (by decide)

/-- Claim C2, counterexample: with the demo file absent the
discharge-date check raises `FileNotFoundError` instead of returning an
error string, and the exception escapes `validate`, so no per-patient
report is produced and the remaining checks never run. -/
theorem C2_counterexample :
    initErr dC2 "A" = none ∧
    (mkValidator dC2 "A").validate_discharge_date 2026 = .error (.fileNotFound "A_demo.csv") ∧
    (mkValidator dC2 "A").validate 2026 = .error (.fileNotFound "A_demo.csv") := by decide

/-- Claim C2 (amended): an exception raised by the discharge-date check
(missing or unreadable demo file, missing or unparseable discharge-date
column) is not captured as an error-message string: it propagates out
of `validate` unchanged, and the checks after it produce no result. -/
theorem C2_amended (v : Validator) (nowYear : Nat) (e : PyExn)
    (h : v.validate_discharge_date nowYear = .error e) :
    v.validate nowYear = .error e := by
  simp [Validator.validate, checkResults, h]

/-- Witness for C2_amended at a concrete state. -/
theorem C2_witness :
    (mkValidator dC2 "A").validate 2026 = .error (.fileNotFound "A_demo.csv") :=
  C2_amended (mkValidator dC2 "A") 2026 (.fileNotFound "A_demo.csv") (by decide)

/-- Claim C9: on a valid, non-empty directory, constructing a Patient
Validator with the empty prefix fails with the out-of-range index
access `prefix[-1]` (an `IndexError`, not one of the defined assertion
messages), before any check can run; and an all-underscore prefix
argument such as `"___"` normalizes to the empty prefix, making the
state reachable from the public interface. -/
theorem C9_confirmed (d : DirState) (h1 : d.pathExists = true) (h2 : d.isDir = true)
    (h3 : d.entries ≠ []) :
    Validator.init d "" = .error PyExn.indexError ∧ stripUnderscores "___" = "" := by
  refine ⟨?_, by decide⟩
  have hE : d.entries.isEmpty = false := by
    cases hd : d.entries with
    | nil => exact absurd hd h3
    | cons a l => rfl
  simp [Validator.init, initErr, h1, h2, hE]

/-- Witness for C9_confirmed at a concrete directory. -/
theorem C9_witness :
    Validator.init dC9 "" = .error PyExn.indexError ∧ stripUnderscores "___" = "" :=
  C9_confirmed dC9 (by decide) (by decide) (by decide)

/-- Claim C10, counterexample: two demo tables with the same first data
row (whose discharge date parses) but different later rows give
different check results — the added unparseable second row keeps the
whole column raw, so the check raises `AttributeError` instead of
passing.  Later rows are therefore not ignored. -/
theorem C10_counterexample :
    initErr dC10a "A" = none ∧ initErr dC10b "A" = none ∧
    parseDate "2015-03-01" = some ⟨2015, 3, 1⟩ ∧
    (mkValidator dC10a "A").validate_discharge_date 2026 = .ok .pass ∧
    (mkValidator dC10b "A").validate_discharge_date 2026 =
      .error (.attributeError "str object has no attribute year") := by decide

/-- Claim C10 (amended): when the demo discharge-date column converts
to dates (every row parses), the check result depends only on the first
row; and with zero data rows the row access raises `KeyError` so the
check returns no pass/fail result at all. -/
theorem C10_amended (v w : Validator) (nowYear : Nat) (ds es : List PDate)
    (hv : readDemoCsv v.path v.pfx = .ok (.dates ds))
    (hw : readDemoCsv w.path w.pfx = .ok (.dates es))
    (hhead : ds.head? = es.head?) :
    v.validate_discharge_date nowYear = w.validate_discharge_date nowYear ∧
    (ds = [] → v.validate_discharge_date nowYear = .error (.keyError "0")) := by
  cases ds with
  | nil =>
    cases es with
    | nil =>
      refine ⟨?_, fun _ => ?_⟩ <;> simp [Validator.validate_discharge_date, hv, hw]
    | cons e0 es2 => simp at hhead
  | cons d0 ds2 =>
    cases es with
    | nil => simp at hhead
    | cons e0 es2 =>
      simp only [List.head?] at hhead
      rw [Option.some.injEq] at hhead
      subst hhead
      refine ⟨?_, fun habs => ?_⟩
      · simp [Validator.validate_discharge_date, hv, hw]
      · simp at habs

/-- Witness for C10_amended: a one-row demo table and a two-row demo
table sharing the first row give the same result. -/
theorem C10_witness :
    (mkValidator dC10a "A").validate_discharge_date 2026 =
      (mkValidator dC10c "A").validate_discharge_date 2026 ∧
    (([⟨2015, 3, 1⟩] : List PDate) = [] →
      (mkValidator dC10a "A").validate_discharge_date 2026 = .error (.keyError "0")) :=
  C10_amended (mkValidator dC10a "A") (mkValidator dC10c "A") 2026
    [⟨2015, 3, 1⟩] [⟨2015, 3, 1⟩, ⟨2001, 2, 3⟩] (by decide) (by decide) (by decide)

/-- Claim C6, counterexample: a completely empty file is a valid file
on disk whose first line is empty, yet the duplicate-header check emits
an error for it — both `readline()` calls return the empty string and
the equality test fires.  The claim that a file whose first line is
empty never triggers this check is false. -/
theorem C6_counterexample :
    initErr dC6 "A" = none ∧
    firstLine ([] : List Char) = [] ∧
    (mkValidator dC6 "A").validate_no_double_headers =
      .errors ["Double header row found in file: A_demo.csv"] := by decide

/-- Claim C6 (amended): the duplicate-header check passes iff no valid
file on disk has its first two `readline()` results equal.  For a file
whose non-empty first line differs from its second line this matches
the claim; for an empty file both reads return the empty string, so an
empty file does trigger the check. -/
theorem C6_amended (v : Validator) :
    v.validate_no_double_headers = .pass ↔
      ∀ f ∈ v.all_valid_files_on_disk, firstLine f.content ≠ secondLine f.content := by
  have hpass : ∀ l, finish l = .pass ↔ l = [] := by
    intro l
    unfold finish
    split <;> simp_all
  unfold Validator.validate_no_double_headers
  rw [hpass, List.filterMap_eq_nil_iff]
  constructor
  · intro h f hf
    have h2 := h f hf
    by_contra hc
    simp [hc] at h2
  · intro h f hf
    simp [h f hf]

/-- Claim C7: when the demo discharge-date column loads and parses, the
check passes iff the first-row year lies in the inclusive range
`[2000, current year]`, and an out-of-range year produces the error
message naming the offending value. -/
theorem C7_confirmed (v : Validator) (nowYear : Nat) (d0 : PDate) (ds : List PDate)
    (h : readDemoCsv v.path v.pfx = .ok (.dates (d0 :: ds))) :
    (v.validate_discharge_date nowYear = .ok .pass ↔
      (2000 ≤ d0.year ∧ d0.year ≤ nowYear)) ∧
    ((d0.year < 2000 ∨ nowYear < d0.year) →
      v.validate_discharge_date nowYear =
        .ok (.errors ["Discharge date is invalid: " ++ showTimestamp d0])) := by
  simp only [Validator.validate_discharge_date, h]
  by_cases hy : d0.year < 2000 ∨ d0.year > nowYear
  · rw [if_pos hy]
    refine ⟨⟨fun he => ?_, fun hin => ?_⟩, fun _ => rfl⟩
    · simp at he
    · omega
  · rw [if_neg hy]
    refine ⟨⟨fun _ => ?_, fun _ => rfl⟩, fun hc => ?_⟩
    · omega
    · exact absurd hc hy

/-- Witness for C7_confirmed at a concrete in-range demo table. -/
theorem C7_witness :
    ((mkValidator dC7 "A").validate_discharge_date 2026 = .ok .pass ↔
      (2000 ≤ (2015 : Nat) ∧ (2015 : Nat) ≤ 2026)) ∧
    (((2015 : Nat) < 2000 ∨ (2026 : Nat) < 2015) →
      (mkValidator dC7 "A").validate_discharge_date 2026 =
        .ok (.errors ["Discharge date is invalid: " ++ showTimestamp ⟨2015, 3, 1⟩])) :=
  C7_confirmed (mkValidator dC7 "A") 2026 ⟨2015, 3, 1⟩ [] (by decide)

/-- Claim C8: the filename-inventory check passes iff every
prefix-matching regular file in the directory has an expected name, and
on failure it produces exactly one aggregate error message with the
unexpected names comma-joined in filesystem order. -/
theorem C8_confirmed (d : DirState) (p : String) (v : Validator)
    (h : Validator.init d p = .ok v) :
    (v.validate_filenames = .pass ↔
      ∀ e ∈ d.entries, e.isFile = true → p.data.isPrefixOf e.name.data = true →
        e.name ∈ v.expected_filenames) ∧
    (v.validate_filenames ≠ .pass →
      v.validate_filenames = .errors
        ["Unexpected files found: " ++ String.intercalate ", "
          ((v.all_matching_files.filter
            (fun f => decide (f.name ∉ v.expected_filenames))).map (fun f => f.name))]) := by
  have hv : v = mkValidator d p := by
    unfold Validator.init at h
    cases hi : initErr d p <;> rw [hi] at h
    · exact (Except.ok.inj h).symm
    · exact Except.noConfusion h
  subst hv
  have hchar : ∀ (l : List FileEntry) (exp : List String),
      l.filter (fun f => decide (f.name ∉ exp)) = [] ↔ ∀ f ∈ l, f.name ∈ exp := by
    intro l exp
    rw [List.filter_eq_nil_iff]
    simp
  have hquant :
      (∀ f ∈ (mkValidator d p).all_matching_files,
          f.name ∈ (mkValidator d p).expected_filenames) ↔
      (∀ e ∈ d.entries, e.isFile = true → p.data.isPrefixOf e.name.data = true →
          e.name ∈ (mkValidator d p).expected_filenames) := by
    simp only [mkValidator, List.mem_filter, Bool.and_eq_true, and_imp]
  by_cases hu : (mkValidator d p).all_matching_files.filter
      (fun f => decide (f.name ∉ (mkValidator d p).expected_filenames)) = []
  · constructor
    · rw [← hquant, ← hchar _ (mkValidator d p).expected_filenames]
      constructor
      · intro _; exact hu
      · intro _
        show Validator.validate_filenames _ = _
        unfold Validator.validate_filenames
        rw [hu]
        rfl
    · intro hne
      exact absurd (by
        show Validator.validate_filenames _ = _
        unfold Validator.validate_filenames
        rw [hu]
        rfl) hne
  · have hlen : ((mkValidator d p).all_matching_files.filter
        (fun f => decide (f.name ∉ (mkValidator d p).expected_filenames))).length > 0 := by
      cases hc : (mkValidator d p).all_matching_files.filter
          (fun f => decide (f.name ∉ (mkValidator d p).expected_filenames)) with
      | nil => exact absurd hc hu
      | cons a l => simp
    have hval : (mkValidator d p).validate_filenames = .errors
        ["Unexpected files found: " ++ String.intercalate ", "
          (((mkValidator d p).all_matching_files.filter
            (fun f => decide (f.name ∉ (mkValidator d p).expected_filenames))).map
              (fun f => f.name))] := by
      unfold Validator.validate_filenames
      rw [if_pos hlen]
      rfl
    constructor
    · rw [hval]
      constructor
      · intro he; exact absurd he (by simp)
      · intro hall
        exact absurd ((hchar _ _).mpr ((hquant).mpr hall)) hu
    · intro _; exact hval

/-- Witness for C8_confirmed at a directory holding one junk file. -/
theorem C8_witness :
    ((mkValidator dC8 "A").validate_filenames = .pass ↔
      ∀ e ∈ dC8.entries, e.isFile = true → "A".data.isPrefixOf e.name.data = true →
        e.name ∈ (mkValidator dC8 "A").expected_filenames) ∧
    ((mkValidator dC8 "A").validate_filenames ≠ .pass →
      (mkValidator dC8 "A").validate_filenames = .errors
        ["Unexpected files found: " ++ String.intercalate ", "
          (((mkValidator dC8 "A").all_matching_files.filter
            (fun f => decide (f.name ∉ (mkValidator dC8 "A").expected_filenames))).map
              (fun f => f.name))]) :=
  C8_confirmed dC8 "A" (mkValidator dC8 "A") (by decide)

/-- Claim C3, counterexample: a (directory, prefix) pair satisfying all
construction preconditions on which `validate` does not run every
enabled check and returns no boolean at all — the discharge-date check
raises (demo file absent) and the exception aborts the check loop, a
fail-fast across checks. -/
theorem C3_counterexample :
    initErr dC3 "B" = none ∧
    checkResults (mkValidator dC3 "B") 2026 = .error (.fileNotFound "B_demo.csv") ∧
    (mkValidator dC3 "B").validate 2026 = .error (.fileNotFound "B_demo.csv") := by decide

/-- Claim C3 (amended): provided no enabled check raises an exception,
`validate` collects a result for every one of the four enabled checks,
failures in earlier checks never prevent later checks from running, and
it returns true iff every enabled check passed.  A raising check (for
example, a missing demo file) instead aborts the loop and skips the
remaining checks. -/
theorem C3_amended (v : Validator) (nowYear : Nat) (rs : List CheckRet)
    (h : checkResults v nowYear = .ok rs) :
    rs.length = 4 ∧ (v.validate nowYear = .ok true ↔ ∀ r ∈ rs, r = CheckRet.pass) := by
  unfold checkResults at h
  cases hd : v.validate_discharge_date nowYear <;> rw [hd] at h
  · exact Except.noConfusion h
  case ok r2 =>
    cases hn : v.validate_no_empty_dates <;> rw [hn] at h
    · exact Except.noConfusion h
    case ok r4 =>
      have hrs := (Except.ok.inj h).symm
      subst hrs
      refine ⟨rfl, ?_⟩
      simp only [Validator.validate, checkResults, hd, hn]
      simp [List.countP_eq_zero]

/-- A successful column lookup implies the column name is in the header. -/
theorem mem_of_colIdx_ne_none (c : String) (hs : List String)
    (h : colIdx c hs ≠ none) : c ∈ hs := by
  induction hs with
  | nil => simp [colIdx] at h
  | cons a rest ih =>
    by_cases hac : a = c
    · subst hac
      exact List.mem_cons_self a rest
    · refine List.mem_cons_of_mem a (ih ?_)
      intro hn
      apply h
      simp [colIdx, hac, hn]

/-- If the inner column loop returns normally, every required column of
that table is present in its header. -/
theorem colErrors_ok_mem (fname : String) (t : RawTable) (cols : List String)
    (es : List String) (h : colErrors fname t cols = .ok es) :
    ∀ c ∈ cols, c ∈ t.header := by
  induction cols generalizing es with
  | nil =>
    intro c hc
    cases hc
  | cons c0 rest ih =>
    intro c hc
    unfold colErrors at h
    cases hcol : t.col c0 <;> rw [hcol] at h
    · exact Except.noConfusion h
    case some vs =>
      cases hrest : colErrors fname t rest <;> rw [hrest] at h
      · exact Except.noConfusion h
      case ok es2 =>
        rcases List.mem_cons.mp hc with rfl | hmem
        · apply mem_of_colIdx_ne_none
          intro hidx
          unfold RawTable.col at hcol
          rw [hidx] at hcol
          exact Option.noConfusion hcol
        · exact ih es2 hrest c hmem

/-- If the outer table loop returns normally, every table of the
mapping that loaded successfully has all its required columns. -/
theorem tableLoop_ok_mem (d : DirState) (p : String) (L : List (String × List String))
    (es : List String) (h : tableLoop d p L = .ok es) :
    ∀ sfx cols, (sfx, cols) ∈ L →
      ∀ t, readCsvFile d (p ++ "_" ++ sfx ++ ".csv") = .ok t →
        ∀ c ∈ cols, c ∈ t.header := by
  induction L generalizing es with
  | nil =>
    intro sfx cols hmem
    cases hmem
  | cons hd2 rest ih =>
    obtain ⟨sfx0, cols0⟩ := hd2
    intro sfx cols hmem t hread c hc
    unfold tableLoop at h
    cases hr : readCsvFile d (p ++ "_" ++ sfx0 ++ ".csv") <;> rw [hr] at h <;> dsimp only at h
    · cases hrest : tableLoop d p rest <;> rw [hrest] at h <;> dsimp only at h
      · exact Except.noConfusion h
      case ok es2 =>
        rcases List.mem_cons.mp hmem with heq | hmem2
        · injection heq with h1 h2
          subst h1
          rw [hread] at hr
          exact Except.noConfusion hr
        · exact ih es2 hrest sfx cols hmem2 t hread c hc
    · case ok t0 =>
      cases hce : colErrors (p ++ "_" ++ sfx0 ++ ".csv") t0 cols0 <;> rw [hce] at h <;>
        dsimp only at h
      · exact Except.noConfusion h
      case ok es1 =>
        cases hrest : tableLoop d p rest <;> rw [hrest] at h <;> dsimp only at h
        · exact Except.noConfusion h
        case ok es2 =>
          rcases List.mem_cons.mp hmem with heq | hmem2
          · injection heq with h1 h2
            subst h1
            subst h2
            rw [hread] at hr
            have ht := Except.ok.inj hr
            subst ht
            exact colErrors_ok_mem _ _ _ _ hce c hc
          · exact ih es2 hrest sfx cols hmem2 t hread c hc

/-- Claim C5, counterexample: `A_ce.csv` loads successfully but lacks
the required `DATE` column; the null-date check raises a `KeyError`
that escapes the check rather than producing a schema-mismatch error
message in its result. -/
theorem C5_counterexample :
    initErr dC5 "A" = none ∧
    readCsvFile dC5 "A_ce.csv" = .ok { header := ["X"], rows := [["1"]] } ∧
    "DATE" ∉ (["X"] : List String) ∧
    (mkValidator dC5 "A").validate_no_empty_dates = .error (.keyError "DATE") := by decide

/-- Claim C5 (amended): the null-date check never reports a missing
required column: whenever it returns a result at all, every table of
the fixed mapping that loaded successfully had all its required columns
— a loaded table with a missing required column instead raises a
`KeyError` that escapes the check. -/
theorem C5_amended (v : Validator) (h : isOkE v.validate_no_empty_dates = true) :
    ∀ sfx cols, (sfx, cols) ∈ file_columns_to_check →
      ∀ t, readCsvFile v.path (v.pfx ++ "_" ++ sfx ++ ".csv") = .ok t →
        ∀ c ∈ cols, c ∈ t.header := by
  unfold Validator.validate_no_empty_dates at h
  cases htl : tableLoop v.path v.pfx file_columns_to_check <;> rw [htl] at h
  · simp [isOkE] at h
  · exact tableLoop_ok_mem _ _ _ _ htl

/-- Witness for C5_amended at a state where the check returns normally
and the `ce` table loads with its required `DATE` column. -/
theorem C5_witness :
    "DATE" ∈ (RawTable.mk ["DATE"] [["2015-03-01"]]).header :=
  C5_amended (mkValidator dC5w "A") (by decide) "ce" ["DATE"] (by decide)
    (RawTable.mk ["DATE"] [["2015-03-01"]]) (by decide) "DATE" (by decide)

/-- Witness for C3_amended at a state where every enabled check passes. -/
theorem C3_witness :
    ([CheckRet.pass, CheckRet.pass, CheckRet.pass, CheckRet.pass] : List CheckRet).length = 4 ∧
    ((mkValidator dC3w "B").validate 2026 = .ok true ↔
      ∀ r ∈ ([CheckRet.pass, CheckRet.pass, CheckRet.pass, CheckRet.pass] : List CheckRet),
        r = CheckRet.pass) :=
  C3_amended (mkValidator dC3w "B") 2026
    [CheckRet.pass, CheckRet.pass, CheckRet.pass, CheckRet.pass] (by decide)
